import Mathlib

/-!
Shallow embedding of the webshot CLI capture orchestrator
(source: src/bin/webshot.js) together with proofs about the claims of
its specification.

Modelling conventions:
- JS strings are Lean `String`; character-level operations go through
  `String.data`.
- JS numbers that may be `NaN` (results of `parseInt`) are `Option Int`,
  with `none` standing for `NaN`; comparisons against `NaN` are `false`,
  matching JS semantics.
- External collaborators (the WHATWG URL parser, the clock, the home
  directory, the puppeteer engine) are oracles passed in explicitly:
  `urlHost` for `new URL(u).hostname` (returning `none` when the
  constructor throws), `ts` for `getTimestamp()`, and an `Oracle` of
  step outcomes for the browser engine inside `screenshotWebsite`.
-/

namespace Webshot

/-- Character-list version of JS `String.prototype.startsWith`. -/
def startsWithL : List Char → List Char → Bool
  | _, [] => true
  | [], _ :: _ => false
  | c :: s, d :: p => c == d && startsWithL s p

/-- JS `s.startsWith(p)` on Lean strings. -/
def jsStartsWith (s p : String) : Bool :=
  startsWithL s.data p.data

/-- Whether `p` occurs as a contiguous substring of the character list. -/
def hasSubstrL (p : List Char) : List Char → Bool
  | [] => p.isEmpty
  | c :: t => startsWithL (c :: t) p || hasSubstrL p t

/-- Whether `pat` occurs as a contiguous substring of `s`. -/
def hasSubstrS (s pat : String) : Bool :=
  hasSubstrL pat.data s.data

/-- JS `s.endsWith(p)` on Lean strings. -/
def endsWithS (s p : String) : Bool :=
  startsWithL s.data.reverse p.data.reverse

/-- JS truthiness of a possibly-absent string value (`undefined` and the
empty string are falsy, every other string is truthy). -/
def truthyOptStr : Option String → Bool
  | none => false
  | some s => !s.isEmpty

/-- Embeds `normalizeUrl` (src/bin/webshot.js lines 43-48): prefix
`https://` unless the string already starts with `http://` or
`https://`. -/
def normalizeUrl (url : String) : String :=
  if !jsStartsWith url "http://" && !jsStartsWith url "https://" then
    "https://" ++ url
  else
    url

/-- Decimal digit value of a character, `none` for non-digits. -/
def digitToNat (c : Char) : Option Nat :=
  if c.isDigit then some (c.toNat - Char.toNat '0') else none

/-- Longest run of leading decimal digits of a character list. -/
def leadingDigits : List Char → List Nat
  | [] => []
  | c :: cs =>
    match digitToNat c with
    | some d => d :: leadingDigits cs
    | none => []

/-- Value of a digit list read left to right in base ten. -/
def digitsVal (ds : List Nat) : Nat :=
  ds.foldl (fun a d => a * 10 + d) 0

/-- JS `parseInt(s)` on the decimal fragment that the CLI exercises:
skip leading whitespace, read an optional sign and then leading decimal
digits, ignore the rest of the string; `none` is `NaN` (no digits). -/
def parseIntJS (s : String) : Option Int :=
  match s.data.dropWhile Char.isWhitespace with
  | '-' :: rest =>
    match leadingDigits rest with
    | [] => none
    | ds => some (-(digitsVal ds : Int))
  | '+' :: rest =>
    match leadingDigits rest with
    | [] => none
    | ds => some ((digitsVal ds : Int))
  | cs =>
    match leadingDigits cs with
    | [] => none
    | ds => some ((digitsVal ds : Int))

/-- JS `<` on possibly-`NaN` numbers: any comparison with `NaN` is
`false`. -/
def jsNumLt : Option Int → Option Int → Bool
  | some a, some b => decide (a < b)
  | _, _ => false

/-- The range check `quality < 1 || quality > 100` from the action
handler (src/bin/webshot.js lines 198-201). -/
def qualityOutOfRange (q : Option Int) : Bool :=
  jsNumLt q (some 1) || jsNumLt (some 100) q

/-- The commander option values as the action handler receives them:
`width`, `height` and `output` may be absent; the rest carry the
documented string defaults (`ratio "16:10"`, `delay "3000"`,
`format "png"`, `quality "90"`) when not supplied. -/
structure CliOptions where
  width : Option String
  height : Option String
  ratioKey : String
  delay : String
  output : Option String
  format : String
  quality : String
  headless : Bool
deriving DecidableEq

/-- A value that is either a raw option string or a preset number, as
`width`/`height` are after dimension resolution. -/
inductive JSVal where
  | str (s : String)
  | num (n : Int)
deriving DecidableEq

/-- `parseInt` applied to such a value (`parseInt` of an integral
number yields that integer). -/
def parseIntJSVal : JSVal → Option Int
  | .str s => parseIntJS s
  | .num n => some n

/-- Validation failures of the action handler, named as in the spec
taxonomy; the preset and format failures carry the list of valid
choices printed by the code. -/
inductive VError where
  | invalidPreset (valid : List String)
  | invalidFormat (valid : List String)
  | invalidQuality
deriving DecidableEq

/-- Embeds the `aspectRatios` object (src/bin/webshot.js lines 18-27). -/
def aspectRatioTable : String → Option (Int × Int)
  | "16:9" => some (1920, 1080)
  | "16:10" => some (1920, 1200)
  | "4:3" => some (1440, 1080)
  | "1:1" => some (1080, 1080)
  | "21:9" => some (2560, 1080)
  | "mobile" => some (375, 667)
  | "tablet" => some (768, 1024)
  | "desktop" => some (1920, 1080)
  | _ => none

/-- `Object.keys(aspectRatios)`, in declaration order. -/
def aspectRatioKeys : List String :=
  ["16:9", "16:10", "4:3", "1:1", "21:9", "mobile", "tablet", "desktop"]

/-- Embeds the dimension block of the action handler
(src/bin/webshot.js lines 160-172): when either `--width` or
`--height` is falsy, both dimensions come from the preset table, and a
missing preset key is the `InvalidPreset` failure. -/
def resolveDims (o : CliOptions) : Except VError (JSVal × JSVal) :=
  if truthyOptStr o.width && truthyOptStr o.height then
    .ok (.str (o.width.getD ""), .str (o.height.getD ""))
  else
    match aspectRatioTable o.ratioKey with
    | some wh => .ok (.num wh.1, .num wh.2)
    | none => .error (.invalidPreset aspectRatioKeys)

/-- `path.join` on the POSIX paths the tool builds. -/
def pathJoin (a b : String) : String :=
  a ++ "/" ++ b

/-- The fixed screenshots directory `~/Desktop/Website_Screenshots`
(src/bin/webshot.js lines 9-11), as a function of the home directory. -/
def outputDirOf (home : String) : String :=
  pathJoin (pathJoin home "Desktop") "Website_Screenshots"

/-- `path.isAbsolute` on POSIX paths. -/
def isAbsoluteJS (p : String) : Bool :=
  jsStartsWith p "/"

/-- The body of the `try` block of `getSafeFilename`
(src/bin/webshot.js lines 55-65): `new URL(url)` is the external
WHATWG parser, modelled by the oracle `urlHost`, which yields the
hostname or `none` when the constructor throws; on success the name is
the hostname with a leading `www.` stripped, an underscore, the
timestamp, and the fixed literal extension `.png`. -/
def getSafeFilenameBody (urlHost : String → Option String) (ts url : String) :
    Except Unit String :=
  match urlHost url with
  | some h =>
    .ok ((if jsStartsWith h "www." then h.drop 4 else h) ++ "_" ++ ts ++ ".png")
  | none => .error ()

/-- `getSafeFilename` with its `catch` branch: a URL parse failure
falls back to `screenshot_<timestamp>.png`. -/
def getSafeFilename (urlHost : String → Option String) (ts url : String) : String :=
  match getSafeFilenameBody urlHost ts url with
  | .ok s => s
  | .error _ => "screenshot_" ++ ts ++ ".png"

/-- Embeds the output block of the action handler (src/bin/webshot.js
lines 174-181): a truthy `--output` is used as-is when absolute and
joined to the screenshots directory when relative; otherwise the
auto-generated filename is joined to the screenshots directory. -/
def resolveOutput (home : String) (urlHost : String → Option String)
    (ts : String) (o : CliOptions) (normalizedUrl : String) : String :=
  if truthyOptStr o.output then
    let out := o.output.getD ""
    if isAbsoluteJS out then out else pathJoin (outputDirOf home) out
  else
    pathJoin (outputDirOf home) (getSafeFilename urlHost ts normalizedUrl)

/-- External inputs of one invocation: the home directory, the WHATWG
URL parser oracle and the timestamp. -/
structure Ext where
  home : String
  urlHost : String → Option String
  ts : String

/-- The argument record handed to `screenshotWebsite`
(src/bin/webshot.js lines 224-233). -/
structure CaptureReq where
  url : String
  width : JSVal
  height : JSVal
  delay : Option Int
  output : String
  headless : Bool
  quality : Option Int
  format : String
deriving DecidableEq

/-- `validFormats` of the action handler (src/bin/webshot.js line 184). -/
def validFormats : List String :=
  ["png", "jpeg"]

/-- Embeds the validation part of the action handler in source order
(src/bin/webshot.js lines 156-233): normalize the URL, resolve
dimensions (exiting on an invalid preset), resolve the output path,
validate the format, parse the quality and reject a jpeg quality whose
range check fires, and otherwise build the `screenshotWebsite`
argument record. -/
def buildReq (ext : Ext) (o : CliOptions) (rawUrl : String) :
    Except VError CaptureReq :=
  let url := normalizeUrl rawUrl
  match resolveDims o with
  | .error e => .error e
  | .ok wh =>
    let output := resolveOutput ext.home ext.urlHost ext.ts o url
    if validFormats.contains o.format then
      let q := parseIntJS o.quality
      if o.format == "jpeg" && qualityOutOfRange q then
        .error .invalidQuality
      else
        .ok { url := url, width := wh.1, height := wh.2,
              delay := parseIntJS o.delay, output := output,
              headless := o.headless, quality := q, format := o.format }
    else
      .error (.invalidFormat validFormats)

/-- The argument of `page.setViewport` (src/bin/webshot.js lines
81-85). -/
structure ViewportCall where
  width : Option Int
  height : Option Int
  deviceScaleFactor : Int
deriving DecidableEq

/-- The viewport `screenshotWebsite` hands to the engine:
`parseInt(width)`, `parseInt(height)` and the literal
`deviceScaleFactor: 1`. -/
def setViewportOf (req : CaptureReq) : ViewportCall :=
  { width := parseIntJSVal req.width,
    height := parseIntJSVal req.height,
    deviceScaleFactor := 1 }

/-- The argument of `page.screenshot` (src/bin/webshot.js lines
108-118): `type` and `quality` are set only for jpeg; the inner
`Option Int` of `quality` is the possibly-`NaN` parsed number. -/
structure ShotOpts where
  path : String
  fullPage : Bool
  type : Option String
  quality : Option (Option Int)
deriving DecidableEq

/-- The screenshot options `screenshotWebsite` builds from its
arguments. -/
def screenshotOptionsOf (req : CaptureReq) : ShotOpts :=
  if req.format == "jpeg" then
    { path := req.output, fullPage := false,
      type := some "jpeg", quality := some req.quality }
  else
    { path := req.output, fullPage := false, type := none, quality := none }

/-- Outcomes of the engine steps of one capture session, an oracle for
the external puppeteer engine: `true` means the awaited call resolves,
`false` that it rejects. -/
structure Oracle where
  launchOk : Bool
  newPageOk : Bool
  viewportOk : Bool
  uaOk : Bool
  gotoOk : Bool
  shotOk : Bool
  statOk : Bool
deriving DecidableEq

/-- Observable events of one capture session. -/
inductive Ev where
  | launched
  | pageOpened
  | viewportSet
  | uaSet
  | navigated
  | captured
  | statted
  | closed
deriving DecidableEq, BEq

/-- The `try` block of `screenshotWebsite` (src/bin/webshot.js lines
76-126): the events it emits up to its first failing step, and whether
it ran to completion. -/
def tryBody (or : Oracle) : List Ev × Bool :=
  if !or.newPageOk then ([], false)
  else if !or.viewportOk then ([.pageOpened], false)
  else if !or.uaOk then ([.pageOpened, .viewportSet], false)
  else if !or.gotoOk then ([.pageOpened, .viewportSet, .uaSet], false)
  else if !or.shotOk then
    ([.pageOpened, .viewportSet, .uaSet, .navigated], false)
  else if !or.statOk then
    ([.pageOpened, .viewportSet, .uaSet, .navigated, .captured], false)
  else
    ([.pageOpened, .viewportSet, .uaSet, .navigated, .captured, .statted], true)

/-- `screenshotWebsite` as an event trace plus success flag: a launch
rejection happens before the `try`, so no browser exists and nothing
further runs; otherwise the `finally` appends exactly one `closed`
after the `try` block, whether or not it failed (src/bin/webshot.js
lines 71-132). -/
def sessionRun (or : Oracle) : List Ev × Bool :=
  if !or.launchOk then ([], false)
  else
    let r := tryBody or
    (Ev.launched :: r.1 ++ [Ev.closed], r.2)

/-- One whole invocation: validation first, with no engine activity at
all when it fails, then the capture session. -/
def invokeRun (ext : Ext) (or : Oracle) (o : CliOptions) (rawUrl : String) :
    List Ev × Except VError Bool :=
  match buildReq ext o rawUrl with
  | .error e => ([], .error e)
  | .ok _ =>
    let r := sessionRun or
    (r.1, .ok r.2)

/-- The flags strings of the commander `.option` declarations
(src/bin/webshot.js lines 140-154). -/
def cliOptionFlags : List String :=
  ["-w, --width <number>", "-h, --height <number>", "-r, --ratio <preset>",
   "-d, --delay <ms>", "-o, --output <file>", "-f, --format <type>",
   "-q, --quality <number>", "--headless", "--no-headless", "--full-page"]

deriving instance DecidableEq for Except

/-- String append concatenates the underlying character lists. -/
theorem data_append_eq (a b : String) : (a ++ b).data = a.data ++ b.data := by
  cases a
  cases b
  rfl

/-- A character list starts with any of its own proper leading parts. -/
theorem startsWithL_append_self (p s : List Char) :
    startsWithL (p ++ s) p = true := by
  induction p with
  | nil => cases s <;> rfl
  | cons c t ih => simp [startsWithL, ih]

/-- A string obtained by prepending `p` starts with `p`. -/
theorem jsStartsWith_append_self (p u : String) :
    jsStartsWith (p ++ u) p = true := by
  unfold jsStartsWith
  rw [data_append_eq]
  exact startsWithL_append_self p.data u.data

/-- The only validation failure dimension resolution produces is the
invalid-preset one. -/
theorem resolveDims_error_eq (o : CliOptions) (e : VError)
    (h : resolveDims o = .error e) : e = .invalidPreset aspectRatioKeys := by
  unfold resolveDims at h
  split at h
  · cases h
  · split at h
    · cases h
    · cases h
      rfl

/-- Claim C6: normalization returns a string starting with http:// or
https:// unchanged, and otherwise returns it prefixed with https://;
in particular example.com becomes https://example.com and http://x.com
is unchanged. -/
theorem c6_normalize_url (u : String) :
    ((jsStartsWith u "http://" = true ∨ jsStartsWith u "https://" = true) →
       normalizeUrl u = u) ∧
    (jsStartsWith u "http://" = false → jsStartsWith u "https://" = false →
       normalizeUrl u = "https://" ++ u) ∧
    normalizeUrl "example.com" = "https://example.com" ∧
    normalizeUrl "http://x.com" = "http://x.com" := by
  refine ⟨?_, ?_, by decide, by decide⟩
  · rintro (h | h) <;> simp [normalizeUrl, h]
  · intro h1 h2
    simp [normalizeUrl, h1, h2]

/-- Witness for claim C6 at the two concrete inputs of the claim. -/
theorem c6_normalize_url_witness :
    normalizeUrl "http://x.com" = "http://x.com" ∧
    normalizeUrl "example.com" = "https://" ++ "example.com" :=
  ⟨(c6_normalize_url "http://x.com").1 (Or.inl (by decide)),
   (c6_normalize_url "example.com").2.1 (by decide) (by decide)⟩

/-- Claim C10: URL normalization is idempotent, since its output always
starts with http:// or https:// and such strings pass through
unchanged. -/
theorem c10_normalize_idempotent (u : String) :
    normalizeUrl (normalizeUrl u) = normalizeUrl u := by
  cases hc : (!jsStartsWith u "http://" && !jsStartsWith u "https://") with
  | false => simp [normalizeUrl, hc]
  | true =>
    have h2 := jsStartsWith_append_self "https://" u
    simp [normalizeUrl, hc, h2]

/-- Claim C5: every preset key of the table resolves, absent explicit
width and height, to exactly the documented pair; a key absent from the
table fails with the invalid-preset error listing the valid keys, and
the key list characterises table membership. -/
theorem c5_preset_table :
    (aspectRatioTable "16:10" = some (1920, 1200) ∧
     aspectRatioTable "16:9" = some (1920, 1080) ∧
     aspectRatioTable "4:3" = some (1440, 1080) ∧
     aspectRatioTable "1:1" = some (1080, 1080) ∧
     aspectRatioTable "21:9" = some (2560, 1080) ∧
     aspectRatioTable "mobile" = some (375, 667) ∧
     aspectRatioTable "tablet" = some (768, 1024) ∧
     aspectRatioTable "desktop" = some (1920, 1080)) ∧
    (∀ (o : CliOptions) (w h : Int), o.width = none → o.height = none →
       aspectRatioTable o.ratioKey = some (w, h) →
       resolveDims o = .ok (.num w, .num h)) ∧
    (∀ o : CliOptions, o.width = none → o.height = none →
       aspectRatioTable o.ratioKey = none →
       resolveDims o = .error (.invalidPreset aspectRatioKeys)) ∧
    (∀ k : String, aspectRatioTable k = none ↔ k ∉ aspectRatioKeys) := by
  refine ⟨by decide, ?_, ?_, ?_⟩
  · intro o w h hw hh ht
    simp [resolveDims, truthyOptStr, hw, hh, ht]
  · intro o hw hh ht
    simp [resolveDims, truthyOptStr, hw, hh, ht]
  · intro k
    constructor
    · intro hnone hk
      simp [aspectRatioKeys] at hk
      rcases hk with h | h | h | h | h | h | h | h <;> subst h <;>
        simp [aspectRatioTable] at hnone
    · intro hk
      simp [aspectRatioKeys] at hk
      obtain ⟨h1, h2, h3, h4, h5, h6, h7, h8⟩ := hk
      unfold aspectRatioTable
      split <;> simp_all

/-- Witness for claim C5: the mobile preset resolves to 375x667 and the
absent key bogus fails with the invalid-preset error. -/
theorem c5_preset_table_witness :
    resolveDims ⟨none, none, "mobile", "3000", none, "png", "90", true⟩
      = .ok (.num 375, .num 667) ∧
    resolveDims ⟨none, none, "bogus", "3000", none, "png", "90", true⟩
      = .error (.invalidPreset aspectRatioKeys) ∧
    "bogus" ∉ aspectRatioKeys :=
  ⟨c5_preset_table.2.1 _ 375 667 rfl rfl (by decide),
   c5_preset_table.2.2.1 _ rfl rfl (by decide),
   (c5_preset_table.2.2.2 "bogus").mp (by decide)⟩

/-- Claim C8: when exactly one of the explicit dimensions is supplied,
its value is discarded: dimension resolution is unchanged by it, and
both dimensions come from the ratio preset. -/
theorem c8_lone_dimension_discarded :
    (∀ (o : CliOptions) (s : String), truthyOptStr o.height = false →
       resolveDims { o with width := some s } = resolveDims { o with width := none }) ∧
    (∀ (o : CliOptions) (s : String), truthyOptStr o.width = false →
       resolveDims { o with height := some s } = resolveDims { o with height := none }) ∧
    (∀ (o : CliOptions) (w h : Int), truthyOptStr o.height = false →
       aspectRatioTable o.ratioKey = some (w, h) →
       resolveDims o = .ok (.num w, .num h)) ∧
    (∀ (o : CliOptions) (w h : Int), truthyOptStr o.width = false →
       aspectRatioTable o.ratioKey = some (w, h) →
       resolveDims o = .ok (.num w, .num h)) := by
  refine ⟨?_, ?_, ?_, ?_⟩
  · intro o s hh
    simp [resolveDims, hh]
  · intro o s hw
    simp [resolveDims, hw]
  · intro o w h hh ht
    simp [resolveDims, hh, ht]
  · intro o w h hw ht
    simp [resolveDims, hw, ht]

/-- Witness for claim C8: a lone width of 999 with the default 16:10
preset still yields 1920x1200. -/
theorem c8_lone_dimension_discarded_witness :
    resolveDims ⟨some "999", none, "16:10", "3000", none, "png", "90", true⟩
      = .ok (.num 1920, .num 1200) :=
  c8_lone_dimension_discarded.2.2.1 _ 1920 1200 (by decide) (by decide)

/-- Claim C3 (amended): on every session whose launch succeeded the
browser is closed exactly once, as the last action before the session
returns or its failure propagates; on every path the number of closes
equals the number of launches, so no session path leaks an open
browser. A launch failure creates no browser instance at all. -/
theorem c3_browser_teardown (or : Oracle) :
    (or.launchOk = true →
       (sessionRun or).1.count Ev.closed = 1 ∧
       (sessionRun or).1.getLast? = some Ev.closed) ∧
    (sessionRun or).1.count Ev.closed = (sessionRun or).1.count Ev.launched := by
  obtain ⟨l, p, v, u, g, s, st⟩ := or
  cases l <;> cases p <;> cases v <;> cases u <;> cases g <;> cases s <;>
    cases st <;> decide

/-- Witness for claim C3: a navigation failure still closes the browser
exactly once, as the last event. -/
theorem c3_browser_teardown_witness :
    (sessionRun ⟨true, true, true, true, false, true, true⟩).1.count Ev.closed = 1 ∧
    (sessionRun ⟨true, true, true, true, false, true, true⟩).1.getLast?
      = some Ev.closed :=
  (c3_browser_teardown ⟨true, true, true, true, false, true, true⟩).1 rfl

/-- Counterexample to claim C3 as stated: when the launch itself fails
the session fails but the browser is closed zero times, not exactly
once, because no browser instance was ever created. -/
theorem c3_launch_fail_no_close :
    (sessionRun ⟨false, true, true, true, true, true, true⟩).2 = false ∧
    ¬((sessionRun ⟨false, true, true, true, true, true, true⟩).1.count Ev.closed
        = 1) := by
  decide

/-- Claim C4 (amended): with format jpeg, a parsed quality outside
1..100 fails validation with the invalid-quality error before any
engine activity, provided dimension resolution succeeded; with format
png the invalid-quality error can never arise. -/
theorem c4_quality_validation :
    (∀ (ext : Ext) (or : Oracle) (o : CliOptions) (rawUrl : String)
       (wh : JSVal × JSVal) (v : Int),
       resolveDims o = .ok wh → o.format = "jpeg" →
       parseIntJS o.quality = some v → (v < 1 ∨ 100 < v) →
       invokeRun ext or o rawUrl = ([], .error .invalidQuality)) ∧
    (∀ (ext : Ext) (or : Oracle) (o : CliOptions) (rawUrl : String),
       o.format = "png" →
       (invokeRun ext or o rawUrl).2 ≠ .error .invalidQuality) := by
  constructor
  · intro ext or o rawUrl wh v hd hf hq hv
    have hrange : qualityOutOfRange (parseIntJS o.quality) = true := by
      rcases hv with hv | hv <;> simp [hq, qualityOutOfRange, jsNumLt, hv]
    simp [invokeRun, buildReq, hd, hf, hrange, validFormats]
  · intro ext or o rawUrl hf
    unfold invokeRun buildReq
    cases hd : resolveDims o with
    | error e =>
      have he := resolveDims_error_eq o e hd
      subst he
      simp
    | ok wh =>
      simp [hf, validFormats]

/-- Witness for claim C4: quality 150 with format jpeg is rejected with
no engine event, and the same invocation with format png is not
rejected for quality. -/
theorem c4_quality_validation_witness :
    invokeRun ⟨"/h", fun _ => some "example.com", "T"⟩
        ⟨true, true, true, true, true, true, true⟩
        ⟨none, none, "16:10", "3000", none, "jpeg", "150", true⟩ "example.com"
      = ([], .error .invalidQuality) ∧
    (invokeRun ⟨"/h", fun _ => some "example.com", "T"⟩
        ⟨true, true, true, true, true, true, true⟩
        ⟨none, none, "16:10", "3000", none, "png", "150", true⟩ "example.com").2
      ≠ .error .invalidQuality :=
  ⟨c4_quality_validation.1 _ _ _ _ (.num 1920, .num 1200) 150 (by decide) rfl
     (by decide) (Or.inr (by decide)),
   c4_quality_validation.2 _ _ _ _ rfl⟩

/-- Counterexample to claim C4 as stated: an invocation with format
jpeg and quality 150 whose ratio preset is also invalid fails with the
invalid-preset error, not the invalid-quality one. -/
theorem c4_preset_error_preempts_quality :
    invokeRun ⟨"/home/u", fun _ => some "example.com", "2025-01-01-00-00-00"⟩
        ⟨true, true, true, true, true, true, true⟩
        ⟨none, none, "bogus", "3000", none, "jpeg", "150", true⟩ "example.com"
      = ([], .error (.invalidPreset aspectRatioKeys)) ∧
    VError.invalidPreset aspectRatioKeys ≠ VError.invalidQuality := by
  decide

/-- Claim C9: a non-numeric quality string parses to NaN, the range
check is then false so validation passes, and the NaN quality is
forwarded into the screenshot options of the engine call; rejection
happens exactly for parsed numeric qualities strictly below 1 or above
100. -/
theorem c9_nan_quality_passes :
    (∀ s : String, parseIntJS s = none →
       qualityOutOfRange (parseIntJS s) = false) ∧
    (∀ (ext : Ext) (o : CliOptions) (rawUrl : String) (wh : JSVal × JSVal),
       resolveDims o = .ok wh → o.format = "jpeg" →
       parseIntJS o.quality = none →
       ∃ req, buildReq ext o rawUrl = .ok req ∧ req.quality = none ∧
         (screenshotOptionsOf req).quality = some none) ∧
    (∀ q : Option Int,
       qualityOutOfRange q = true ↔ ∃ v, q = some v ∧ (v < 1 ∨ 100 < v)) := by
  refine ⟨?_, ?_, ?_⟩
  · intro s h
    rw [h]
    rfl
  · intro ext o rawUrl wh hd hf hq
    refine ⟨{ url := normalizeUrl rawUrl, width := wh.1, height := wh.2,
              delay := parseIntJS o.delay,
              output := resolveOutput ext.home ext.urlHost ext.ts o
                (normalizeUrl rawUrl),
              headless := o.headless, quality := none, format := o.format },
            ?_, rfl, ?_⟩
    · simp [buildReq, hd, hf, hq, validFormats, qualityOutOfRange, jsNumLt]
    · simp [screenshotOptionsOf, hf]
  · intro q
    cases q <;> simp [qualityOutOfRange, jsNumLt]

/-- Witness for claim C9 at the non-numeric quality string abc. -/
theorem c9_nan_quality_passes_witness :
    qualityOutOfRange (parseIntJS "abc") = false ∧
    ∃ req, buildReq ⟨"/h", fun _ => some "example.com", "T"⟩
        ⟨none, none, "16:10", "3000", none, "jpeg", "abc", true⟩ "example.com"
        = .ok req ∧ req.quality = none ∧
      (screenshotOptionsOf req).quality = some none :=
  ⟨c9_nan_quality_passes.1 "abc" (by decide),
   c9_nan_quality_passes.2.1 _ _ _ (.num 1920, .num 1200) (by decide) rfl
     (by decide)⟩

/-- Claim C2 (amended): when no output path is supplied and the URL
parses, the auto-generated filename is the www-stripped host, an
underscore, the timestamp, and the literal extension .png, regardless
of the resolved format. -/
theorem c2_filename_ext_always_png :
    ∀ (home : String) (urlHost : String → Option String) (ts : String)
      (o : CliOptions) (url h : String),
      truthyOptStr o.output = false → urlHost url = some h →
      resolveOutput home urlHost ts o url
        = pathJoin (outputDirOf home)
            ((if jsStartsWith h "www." then h.drop 4 else h)
              ++ "_" ++ ts ++ ".png") := by
  intro home urlHost ts o url h ho hh
  simp [resolveOutput, ho, getSafeFilename, getSafeFilenameBody, hh]

/-- Witness for claim C2: a jpeg invocation with host www.example.com
still derives example.com_(timestamp).png. -/
theorem c2_filename_ext_always_png_witness :
    resolveOutput "/home/u" (fun _ => some "www.example.com")
        "2025-01-01-00-00-00"
        ⟨none, none, "16:10", "3000", none, "jpeg", "90", true⟩
        "https://www.example.com"
      = "/home/u/Desktop/Website_Screenshots/example.com_2025-01-01-00-00-00.png" := by
  rw [c2_filename_ext_always_png "/home/u" (fun _ => some "www.example.com")
    "2025-01-01-00-00-00" ⟨none, none, "16:10", "3000", none, "jpeg", "90", true⟩
    "https://www.example.com" "www.example.com" (by decide) rfl]
  decide

/-- Counterexample to claim C2 as stated: a jpeg invocation without an
explicit output produces a path ending in .png, not in .jpg or .jpeg. -/
theorem c2_jpeg_filename_png_ext :
    ((buildReq ⟨"/home/u", fun _ => some "example.com", "2025-01-01-00-00-00"⟩
        ⟨none, none, "16:10", "3000", none, "jpeg", "90", true⟩
        "https://example.com").toOption.map CaptureReq.output
      = some "/home/u/Desktop/Website_Screenshots/example.com_2025-01-01-00-00-00.png") ∧
    endsWithS "/home/u/Desktop/Website_Screenshots/example.com_2025-01-01-00-00-00.png"
      ".png" = true ∧
    endsWithS "/home/u/Desktop/Website_Screenshots/example.com_2025-01-01-00-00-00.png"
      ".jpg" = false ∧
    endsWithS "/home/u/Desktop/Website_Screenshots/example.com_2025-01-01-00-00-00.png"
      ".jpeg" = false := by
  decide

/-- Claim C7: default filename generation is total; a URL parse failure
is caught and yields the fallback screenshot_(timestamp).png rather
than propagating, and the output-path resolution consumes the result
without any error path of its own. -/
theorem c7_filename_total_fallback :
    ∀ (urlHost : String → Option String) (ts url : String),
      (urlHost url = none →
         getSafeFilenameBody urlHost ts url = .error () ∧
         getSafeFilename urlHost ts url = "screenshot_" ++ ts ++ ".png") ∧
      (∀ e, getSafeFilenameBody urlHost ts url = .error e →
         getSafeFilename urlHost ts url = "screenshot_" ++ ts ++ ".png") ∧
      (∀ (home : String) (o : CliOptions), truthyOptStr o.output = false →
         resolveOutput home urlHost ts o url
           = pathJoin (outputDirOf home) (getSafeFilename urlHost ts url)) := by
  intro urlHost ts url
  refine ⟨?_, ?_, ?_⟩
  · intro h
    simp [getSafeFilenameBody, getSafeFilename, h]
  · intro e h
    simp [getSafeFilename, h]
  · intro home o ho
    simp [resolveOutput, ho]

/-- Witness for claim C7 at an input whose URL parse fails. -/
theorem c7_filename_total_fallback_witness :
    getSafeFilename (fun _ => none) "T" "::bad::" = "screenshot_" ++ "T" ++ ".png" :=
  ((c7_filename_total_fallback (fun _ => none) "T" "::bad::").1 rfl).2

/-- Claim C1: no commander option mentions --scale or -s although the
README documents one; the viewport handed to the engine is always the
parsed resolved base dimensions with deviceScaleFactor fixed at 1, with
no multiplication by any scale factor. -/
theorem c1_scale_flag_missing :
    cliOptionFlags.all (fun f => !hasSubstrS f "--scale") = true ∧
    cliOptionFlags.all (fun f => !hasSubstrS f "-s,") = true ∧
    (∀ req : CaptureReq,
       (setViewportOf req).deviceScaleFactor = 1 ∧
       (setViewportOf req).width = parseIntJSVal req.width ∧
       (setViewportOf req).height = parseIntJSVal req.height) ∧
    setViewportOf { url := "https://example.com", width := .num 1920,
                    height := .num 1200, delay := some 3000, output := "x.png",
                    headless := true, quality := some 90, format := "png" }
      = { width := some 1920, height := some 1200, deviceScaleFactor := 1 } := by
  exact ⟨by decide, by decide, fun req => ⟨rfl, rfl, rfl⟩, by decide⟩

end Webshot
